import Mathlib

/-!
Verification of the visionflow course-generation pipeline
(`api/generator.py` and the `/api/generate` endpoint of `api/index.py`)
against its natural-language specification.

Strings are modelled as `List Char`.  External collaborators (the Gemini
text-generation service, the `json.loads` parser, the YouTube search
service, the random-number generator and the relational store) are
modelled as explicit inputs (oracles) to the functions that consume them;
everything the repository's own code does to those inputs is translated
directly from the source.
-/

set_option maxRecDepth 10000

/-! ## Python string primitives used by the pipeline -/

/-- Characters matched by the regex class `\s` (and stripped by
`str.strip()`) for ASCII text: space, tab, newline, carriage return,
vertical tab, form feed. -/
def isPyWs (c : Char) : Bool :=
  c == ' ' || c == '\t' || c == '\n' || c == '\r' || c == '\x0b' || c == '\x0c'

/-- Python `str.strip()` from the left: drop leading whitespace. -/
def lstrip (l : List Char) : List Char := l.dropWhile isPyWs

/-- Python `str.strip()` from the right: drop trailing whitespace. -/
def rstrip (l : List Char) : List Char := (l.reverse.dropWhile isPyWs).reverse

/-- Python `str.strip()`: drop leading and trailing whitespace. -/
def pyStrip (l : List Char) : List Char := rstrip (lstrip l)

/-- Python `str.lower()` restricted to ASCII case mapping. -/
def pyLower (l : List Char) : List Char := l.map Char.toLower

/-- Python `needle in haystack` substring test on strings. -/
def containsSub (needle hay : List Char) : Bool :=
  (List.range (hay.length + 1)).any (fun i => needle.isPrefixOf (hay.drop i))

/-- Case-insensitive prefix test: the pattern (already lowercase) matches a
prefix of the text when each text character lowercased equals the pattern
character, mirroring `re.IGNORECASE` matching of a literal pattern. -/
def isPrefixCI : List Char → List Char → Bool
  | [], _ => true
  | _ :: _, [] => false
  | p :: ps, c :: cs => (c.toLower == p) && isPrefixCI ps cs

/-! ## Response Sanitizer: `clean_json_string` (generator.py lines 16-28) -/

/-- The backquote character, U+0060. -/
def backquote : Char := Char.ofNat 96

/-- The three-character code-fence marker. -/
def fence : List Char := [backquote, backquote, backquote]

/-- The seven-character tagged code-fence opener matched case-insensitively. -/
def fenceJson : List Char := fence ++ ['j', 's', 'o', 'n']

/-- Model of `re.sub(r'^```json\s*', '', text, flags=re.IGNORECASE)`:
the `^` anchor (no MULTILINE) allows at most one match, at the start;
`\s*` greedily consumes the whitespace that follows the marker. -/
def sub1 (l : List Char) : List Char :=
  if isPrefixCI fenceJson l then (l.drop 7).dropWhile isPyWs else l

/-- Model of `re.sub(r'^```\s*', '', text)`. -/
def sub2 (l : List Char) : List Char :=
  if isPrefixCI fence l then (l.drop 3).dropWhile isPyWs else l

/-- Model of `re.sub(r'\s*```$', '', text)`.  In Python `$` (no MULTILINE)
matches at the end of the string or just before a final newline, so the
marker plus the maximal whitespace run before it is removed either at the
very end or just before a terminating newline. -/
def sub3 (l : List Char) : List Char :=
  if isPrefixCI fence l.reverse then
    ((l.reverse.drop 3).dropWhile isPyWs).reverse
  else if (l.reverse.head? == some '\n') && isPrefixCI fence (l.reverse.drop 1) then
    ((l.reverse.drop 4).dropWhile isPyWs).reverse ++ ['\n']
  else l

/-- Model of `clean_json_string` (generator.py lines 16-28): strip a leading
` ```json ` marker, then a leading ` ``` ` marker, then a trailing ` ``` `
marker, then surrounding whitespace. -/
def clean_json_string (l : List Char) : List Char :=
  pyStrip (sub3 (sub2 (sub1 l)))

example : clean_json_string (("```json\nhello\n```").data) = ("hello").data := by decide

example : clean_json_string (("``` ```json abc").data) = ("```json abc").data := by decide

/-! ## Identifier derivation (generator.py lines 183-184) -/

/-- Characters kept by `re.sub(r'[^a-z0-9_]', '', ...)`. -/
def isSlugChar (c : Char) : Bool :=
  (('a' ≤ c) && (c ≤ 'z')) || (('0' ≤ c) && (c ≤ '9')) || c == '_'

/-- Model of the slug derivation in `generate_course`:
`title.lower().replace(' ', '_').replace('-', '_')` followed by
`re.sub(r'[^a-z0-9_]', '', course_id)[:50]`.  The two `replace` calls are
fused into one map (the first produces no hyphen, so they commute). -/
def slugOf (title : List Char) : List Char :=
  (((pyLower title).map (fun c => if c == ' ' || c == '-' then '_' else c)).filter
    isSlugChar).take 50

/-- Decidable form of the specification regex `^[a-z0-9_]{1,50}$`. -/
def slugRegexOk (l : List Char) : Bool :=
  (1 ≤ l.length) && (l.length ≤ 50) && l.all isSlugChar

example : slugOf (("Advanced Backend Systems with Rust!").data)
    = ("advanced_backend_systems_with_rust").data := by decide

example : slugOf (("!!!").data) = [] := by decide

/-! ## JSON values and the validation stage of `generate_syllabus`
(generator.py lines 95-132)

The call to the Gemini client and `json.loads` are external collaborators;
they are modelled as an input of type `Except (List Char) JVal` (either the
parser's failure diagnostic or the parsed value).  Everything after the
parse is translated from the source. -/

/-- Parsed JSON values as produced by `json.loads`. -/
inductive JVal where
  | null : JVal
  | bool (b : Bool) : JVal
  | num (n : Int) : JVal
  | str (s : List Char) : JVal
  | arr (xs : List JVal) : JVal
  | obj (kvs : List (List Char × JVal)) : JVal

/-- Dictionary key membership used by `key in syllabus` on a dict. -/
def hasKeyB (kvs : List (List Char × JVal)) (k : List Char) : Bool :=
  kvs.any (fun p => p.1 == k)

/-- Dictionary lookup: `json.loads` keeps the last binding for a repeated
key, so lookup returns the value of the last matching pair. -/
def lookupLast (kvs : List (List Char × JVal)) (k : List Char) : Option JVal :=
  (kvs.reverse.find? (fun p => p.1 == k)).map (fun p => p.2)

/-- Python `key in value` for a JSON value: key membership on a dict,
element equality on a list, substring test on a string; on a number,
boolean or null the operator raises `TypeError`, modelled as `.error`. -/
def pyIn (k : List Char) : JVal → Except Unit Bool
  | JVal.obj kvs => Except.ok (hasKeyB kvs k)
  | JVal.arr xs => Except.ok (xs.any (fun v => match v with
      | JVal.str s => s == k
      | _ => false))
  | JVal.str s => Except.ok (containsSub k s)
  | _ => Except.error ()

/-- Python `value[key]` with a string key: dict lookup (`KeyError` when the
key is absent); every other value raises `TypeError`. -/
def getItem (j : JVal) (k : List Char) : Except Unit JVal :=
  match j with
  | JVal.obj kvs =>
    match lookupLast kvs k with
    | some v => Except.ok v
    | none => Except.error ()
  | _ => Except.error ()

/-- Python `len(value)`: defined for strings, lists and dicts; raises
`TypeError` on numbers, booleans and null. -/
def pyLen : JVal → Except Unit Nat
  | JVal.str s => Except.ok s.length
  | JVal.arr xs => Except.ok xs.length
  | JVal.obj kvs => Except.ok kvs.length
  | _ => Except.error ()

/-- Error outcomes of `generate_syllabus`, all raised as `ValueError` in
the source; `serviceError` is the wrapper applied by the final
`except Exception` clause (generator.py lines 130-132). -/
inductive GenErr where
  | invalidJSON : GenErr
  | missingFields : GenErr
  | serviceError (msg : List Char) : GenErr
deriving DecidableEq

/-- The `ValueError` message carried by each error outcome. -/
def GenErr.message : GenErr → List Char
  | GenErr.invalidJSON => ("AI returned invalid JSON structure").data
  | GenErr.missingFields => ("Missing required fields in syllabus").data
  | GenErr.serviceError m => ("AI service error: ").data ++ m

def keyTitle : List Char := ("title").data

def keyModules : List Char := ("modules").data

/-- Validation stage of `generate_syllabus` (generator.py lines 110-125),
applied to the outcome of `json.loads` on the cleaned response text:
a parse failure raises the invalid-JSON `ValueError`; then
`all(key in syllabus for key in ['title', 'modules'])` is checked (the
generator short-circuits on the first missing key); then the soft module
count check evaluates `len(syllabus['modules'])` and only logs a warning.
A `TypeError` escaping from `in`, `[]` or `len` is caught by the trailing
`except Exception` clause and wrapped as an AI-service `ValueError`. -/
def generate_syllabus (parsed : Except (List Char) JVal) : Except GenErr JVal :=
  match parsed with
  | Except.error _ => Except.error GenErr.invalidJSON
  | Except.ok j =>
    match pyIn keyTitle j with
    | Except.error _ => Except.error (GenErr.serviceError (("TypeError").data))
    | Except.ok t =>
      if t then
        match pyIn keyModules j with
        | Except.error _ => Except.error (GenErr.serviceError (("TypeError").data))
        | Except.ok m =>
          if m then
            match getItem j keyModules with
            | Except.error _ => Except.error (GenErr.serviceError (("TypeError").data))
            | Except.ok v =>
              match pyLen v with
              | Except.error _ => Except.error (GenErr.serviceError (("TypeError").data))
              | Except.ok _ => Except.ok j
          else Except.error GenErr.missingFields
      else Except.error GenErr.missingFields

example :
    generate_syllabus (Except.ok (JVal.obj [(keyTitle, JVal.str (("T").data))]))
      = Except.error GenErr.missingFields := rfl

example :
    generate_syllabus (Except.ok (JVal.obj
        [(keyTitle, JVal.str (("T").data)), (keyModules, JVal.arr [JVal.null])]))
      = Except.ok (JVal.obj
        [(keyTitle, JVal.str (("T").data)), (keyModules, JVal.arr [JVal.null])]) := rfl

/-! ## Video Resolver: `search_youtube_video` (generator.py lines 134-164) -/

/-- One raw record of the video-search service: a dict whose `id`, `title`
and `duration` keys may each be absent (read with `.get` and a default). -/
structure VideoRaw where
  id : Option (List Char)
  title : Option (List Char)
  duration : Option (List Char)
deriving DecidableEq

/-- Outcome of the external video-search call `VideosSearch(...).result()`:
the call raises, or yields a dict whose `result` key is absent (`none`) or
holds a list of records. -/
inductive SearchOutcome where
  | raises (msg : List Char) : SearchOutcome
  | returns (result : Option (List VideoRaw)) : SearchOutcome
deriving DecidableEq

/-- The resolved video record returned to the caller. -/
structure VideoInfo where
  id : List Char
  title : List Char
  duration : List Char
deriving DecidableEq

/-- The fixed placeholder video identifier. -/
def fallbackId : List Char := ("dQw4w9WgXcQ").data

/-- The default duration string. -/
def defaultDuration : List Char := ("10:00").data

/-- The fixed fallback record: placeholder identifier, the original query
as title, the default duration. -/
def fallbackVideo (query : List Char) : VideoInfo :=
  { id := fallbackId, title := query, duration := defaultDuration }

/-- Model of `search_youtube_video` (generator.py lines 134-164): if the
service raises, or its `result` field is missing or empty, the fixed
fallback record is returned; otherwise the first record's fields are read
with per-field defaults (`''` for id, the query for title, `'10:00'` for
duration).  The function is total: no outcome propagates an exception. -/
def search_youtube_video (query : List Char) (outcome : SearchOutcome) : VideoInfo :=
  match outcome with
  | SearchOutcome.raises _ => fallbackVideo query
  | SearchOutcome.returns none => fallbackVideo query
  | SearchOutcome.returns (some []) => fallbackVideo query
  | SearchOutcome.returns (some (v :: _)) =>
    { id := v.id.getD [], title := v.title.getD query, duration := v.duration.getD defaultDuration }

/-! ## Course Assembler: `generate_course` (generator.py lines 166-237)

The assembler consumes the outcome of `generate_syllabus` (an oracle of
type `Except GenErr Syllabus`), a video-search function (total, as
established for `search_youtube_video`), the random suffix drawn by
`random.randint(100, 999)` and the database state.  The relational store
is modelled as lists of rows plus the auto-increment counter that
`db.session.flush()` uses to assign `Module.id`. -/

/-- A validated module entry of the syllabus dict: `module_data['title']`
is read with `[]` (required) and `module_data.get('lessons', [])` with a
default, so `lessons` is optional. -/
structure ModuleSpec where
  title : List Char
  lessons : Option (List (List Char))
deriving DecidableEq

/-- The validated syllabus dict as consumed by `generate_course`:
`syllabus['title']` and `syllabus['modules']` are required (guaranteed by
the validator), `description` and `level` are read with `.get` defaults. -/
structure Syllabus where
  title : List Char
  description : Option (List Char)
  level : Option (List Char)
  modules : List ModuleSpec
deriving DecidableEq

/-- A persisted Course row. -/
structure CourseRow where
  id : List Char
  title : List Char
  description : List Char
  thumbnail_url : List Char
  level : List Char
  is_generated : Bool
deriving DecidableEq

/-- A persisted Module row; `id` is the primary key assigned at flush. -/
structure ModuleRow where
  id : Nat
  course_id : List Char
  title : List Char
  order_index : Nat
deriving DecidableEq

/-- A persisted Lesson row. -/
structure LessonRow where
  module_id : Nat
  title : List Char
  video_url : List Char
  duration : List Char
  order_index : Nat
deriving DecidableEq

/-- The relational store: the three tables plus the auto-increment counter
for Module primary keys. -/
structure DB where
  courses : List CourseRow
  modules : List ModuleRow
  lessons : List LessonRow
  nextModuleId : Nat
deriving DecidableEq

/-- Default description `f"Master {topic_name} from scratch"`. -/
def descDefault (topic : List Char) : List Char :=
  ("Master ").data ++ topic ++ (" from scratch").data

/-- Default level string. -/
def levelDefault : List Char := ("Beginner").data

/-- The placeholder thumbnail set at Course creation. -/
def placeholderThumb : List Char :=
  ("https://img.youtube.com/vi/placeholder/mqdefault.jpg").data

/-- Thumbnail URL built from a video identifier,
`f"https://img.youtube.com/vi/{video_id}/mqdefault.jpg"`. -/
def thumbUrl (vid : List Char) : List Char :=
  ("https://img.youtube.com/vi/").data ++ vid ++ ("/mqdefault.jpg").data

/-- Identifier finalisation (generator.py lines 186-191): if the derived
slug equals the id of an existing Course, append `_` and the decimal
digits of the random draw, once, with no further existence check. -/
def courseIdFor (slug : List Char) (db : DB) (rand : Nat) : List Char :=
  if db.courses.any (fun c => c.id == slug) then
    slug ++ '_' :: (Nat.repr rand).data
  else slug

/-- Lesson rows created by the inner loop `for lesson_idx, lesson_title in
enumerate(lessons)` for one module: each row stores the resolved video id
and duration and the 1-based `order_index`. -/
def buildLessons (search : List Char → VideoInfo) (mid : Nat) (idx : Nat) :
    List (List Char) → List LessonRow
  | [] => []
  | t :: rest =>
    { module_id := mid, title := t, video_url := (search t).id,
      duration := (search t).duration, order_index := idx + 1 }
      :: buildLessons search mid (idx + 1) rest

/-- Module rows created by the outer loop `for module_idx, module_data in
enumerate(syllabus['modules'])`: 1-based `order_index`, primary keys
assigned sequentially at each flush. -/
def buildModuleRows (cid : List Char) (idx : Nat) (mid : Nat) :
    List ModuleSpec → List ModuleRow
  | [] => []
  | m :: rest =>
    { id := mid, course_id := cid, title := m.title, order_index := idx + 1 }
      :: buildModuleRows cid (idx + 1) (mid + 1) rest

/-- Lesson rows of all modules, in creation order, each bound to its
module's primary key; `module_data.get('lessons', [])` supplies `[]` for a
module without a lessons list. -/
def buildLessonRows (search : List Char → VideoInfo) (mid : Nat) :
    List ModuleSpec → List LessonRow
  | [] => []
  | m :: rest =>
    buildLessons search mid 0 (m.lessons.getD [])
      ++ buildLessonRows search (mid + 1) rest

/-- Final Course thumbnail: overwritten with the URL of the video resolved
for lesson index 0 of module index 0 (generator.py lines 230-232); when
the first module has no lessons the placeholder remains, whatever later
modules contain. -/
def courseThumb (search : List Char → VideoInfo) (mods : List ModuleSpec) : List Char :=
  match mods with
  | [] => placeholderThumb
  | m :: _ =>
    match m.lessons.getD [] with
    | [] => placeholderThumb
    | t :: _ => thumbUrl (search t).id

/-- The successful branch of `generate_course`: derive the identifier,
create the Course row (description and level defaulted when absent,
generated flag set, thumbnail back-filled from the first resolved video),
then the Module and Lesson rows, and commit the batch. -/
def generate_course_ok (topic : List Char) (s : Syllabus)
    (search : List Char → VideoInfo) (rand : Nat) (db : DB) : List Char × DB :=
  let cid := courseIdFor (slugOf s.title) db rand
  let course : CourseRow :=
    { id := cid, title := s.title,
      description := s.description.getD (descDefault topic),
      thumbnail_url := courseThumb search s.modules,
      level := s.level.getD levelDefault, is_generated := true }
  let mrows := buildModuleRows cid 0 db.nextModuleId s.modules
  let lrows := buildLessonRows search db.nextModuleId s.modules
  (cid, { courses := db.courses ++ [course], modules := db.modules ++ mrows,
          lessons := db.lessons ++ lrows,
          nextModuleId := db.nextModuleId + mrows.length })

/-- Model of `generate_course` (generator.py lines 166-237).  Steps 1-2
(syllabus generation, sanitize + validate) happen before any
`db.session.add`, so their exception outcome propagates with the store
untouched; step 3 (identifier derivation) is pure and total.  On a
successful syllabus the assembler returns the new identifier and the
committed store. -/
def generate_course (topic : List Char) (syl : Except GenErr Syllabus)
    (search : List Char → VideoInfo) (rand : Nat) (db : DB) :
    Except GenErr (List Char × DB) :=
  match syl with
  | Except.error e => Except.error e
  | Except.ok s => Except.ok (generate_course_ok topic s search rand db)

/-! ## HTTP layer: `generate_course_api` (index.py lines 420-493)

The request is modelled by the three outcomes the handler distinguishes
before reaching the generator, and the generator call by an oracle
returning the course id or a raised exception.  Exceptions are split the
way the handler's clauses split them: `ValueError` (the class every
generator error is raised as) against everything else. -/

/-- A raised Python exception as seen by the route handler: its class
(`ValueError` or any other) and its `str(e)` text. -/
inductive PyExn where
  | valueError (msg : List Char) : PyExn
  | otherExn (msg : List Char) : PyExn
deriving DecidableEq

/-- Outcome of reading the request body: `request.json` raised, or the
parsed body is falsy / lacks a `topic` key, or a topic string was read. -/
inductive ApiRequest where
  | badJson : ApiRequest
  | noTopic : ApiRequest
  | withTopic (t : List Char) : ApiRequest
deriving DecidableEq

/-- Rate-limit pattern of index.py line 478:
`"429" in error_str or "rate" in error_str.lower() or "quota" in error_str.lower()`. -/
def matchesRateLimit (msg : List Char) : Bool :=
  containsSub (("429").data) msg || containsSub (("rate").data) (pyLower msg)
    || containsSub (("quota").data) (pyLower msg)

/-- Not-found pattern of index.py line 483:
`"404" in error_str or "not found" in error_str.lower()`. -/
def matchesNotFound (msg : List Char) : Bool :=
  containsSub (("404").data) msg || containsSub (("not found").data) (pyLower msg)

/-- Model of the `/api/generate` handler (index.py lines 420-493),
returning the HTTP status code and the `course_id` of a success body.
Validation failures return 400; a `ValueError` raised by the generator is
caught by the dedicated clause and returns 400; any other exception
returns 503 when its text matches the rate-limit or not-found patterns
and 500 otherwise. -/
def generate_course_api (req : ApiRequest)
    (gen : List Char → Except PyExn (List Char)) : Nat × Option (List Char) :=
  match req with
  | ApiRequest.badJson => (400, none)
  | ApiRequest.noTopic => (400, none)
  | ApiRequest.withTopic t =>
    let topic := pyStrip t
    if topic.length = 0 then (400, none)
    else if 100 < topic.length then (400, none)
    else
      match gen topic with
      | Except.ok cid => (200, some cid)
      | Except.error (PyExn.valueError _) => (400, none)
      | Except.error (PyExn.otherExn m) =>
        if matchesRateLimit m then (503, none)
        else if matchesNotFound m then (503, none)
        else (500, none)

/-! ## Shared helper lemmas -/

/-- A list produced by `dropWhile` is a fixed point of the same `dropWhile`. -/
theorem dropWhile_fixed {α : Type} (p : α → Bool) (l : List α) :
    (l.dropWhile p).dropWhile p = l.dropWhile p := by
  cases hd : l.dropWhile p with
  | nil => rfl
  | cons c cs =>
    have hc : p c = false := by
      have h := List.head?_dropWhile_not p l
      rw [hd] at h
      exact h
    exact List.dropWhile_cons_of_neg (by simp [hc])

/-- The head of a `dropWhile` result never satisfies the predicate. -/
theorem dropWhile_head_false {α : Type} {p : α → Bool} {l : List α} {c : α} {cs : List α}
    (h : l.dropWhile p = c :: cs) : p c = false := by
  have h2 := List.head?_dropWhile_not p l
  rw [h] at h2
  exact h2

/-- A found dictionary binding implies key membership. -/
theorem hasKeyB_of_lookupLast {kvs : List (List Char × JVal)} {k : List Char} {v : JVal}
    (h : lookupLast kvs k = some v) : hasKeyB kvs k = true := by
  unfold lookupLast at h
  rcases Option.map_eq_some'.mp h with ⟨p, hp, hv⟩
  unfold hasKeyB
  rw [List.any_eq_true]
  have hpred := List.find?_some hp
  exact ⟨p, List.mem_reverse.mp (List.mem_of_find?_eq_some hp), by simpa using hpred⟩

/-- Decimal notation of every number drawn from `randint(100, 999)` has
exactly three digits. -/
theorem repr_digits_three : ∀ n, n < 1000 → 100 ≤ n → ((Nat.repr n).data).length = 3 := by
  decide

/-! ## C2 - failure in steps 1-3 leaves the store untouched -/

/-- C2: every exception outcome of steps 1-3 of `generate_course`
(syllabus generation, sanitize + validate, identifier derivation)
propagates unchanged, and the returned outcome carries no store: the
database value held by the caller is exactly the one passed in, with no
Course, Module or Lesson row added or staged.  In the model the store
only appears in the payload of a successful outcome, mirroring that the
first `db.session.add` in the source happens after steps 1-3. -/
theorem generate_course_error_aborts_clean (topic : List Char) (e : GenErr)
    (search : List Char → VideoInfo) (rand : Nat) (db : DB) :
    generate_course topic (Except.error e) search rand db = Except.error e := rfl

/-! ## C3 - fallback on empty results or a raised search error -/

/-- C3: when the video-search service raises or yields no results (a
missing `result` field or an empty list), `search_youtube_video` returns
exactly the fixed fallback record - the placeholder identifier
`dQw4w9WgXcQ`, the original query as title and duration `10:00` - and,
being a total function of the outcome, never propagates an exception. -/
theorem search_youtube_video_fallback_total (q msg : List Char) :
    search_youtube_video q (SearchOutcome.raises msg) = fallbackVideo q
    ∧ search_youtube_video q (SearchOutcome.returns none) = fallbackVideo q
    ∧ search_youtube_video q (SearchOutcome.returns (some [])) = fallbackVideo q
    ∧ (fallbackVideo q).id = fallbackId
    ∧ (fallbackVideo q).title = q
    ∧ (fallbackVideo q).duration = defaultDuration :=
  ⟨rfl, rfl, rfl, rfl, rfl, rfl⟩

/-! ## C10 - non-empty results use per-field defaults, not the fallback -/

/-- C10: a non-empty search result is never replaced by the fallback
record: the first record's fields are returned with per-field defaults
(empty string for a missing id, the query for a missing title, `10:00`
for a missing duration), so a record lacking all three fields yields an
empty video id, which differs from the placeholder identifier. -/
theorem search_youtube_video_field_defaults (q : List Char) (v : VideoRaw)
    (vs : List VideoRaw) :
    search_youtube_video q (SearchOutcome.returns (some (v :: vs)))
      = { id := v.id.getD [], title := v.title.getD q,
          duration := v.duration.getD defaultDuration }
    ∧ search_youtube_video q
        (SearchOutcome.returns (some ({ id := none, title := none, duration := none } :: vs)))
      = { id := [], title := q, duration := defaultDuration }
    ∧ ([] : List Char) ≠ fallbackId := by
  refine ⟨rfl, rfl, ?_⟩
  decide

/-! ## C6 - shape of the derived identifier -/

/-- C6 counterexample: the title `!!!` derives the empty identifier, which
does not match `^[a-z0-9_]{1,50}$` (its length is 0, not at least 1). -/
theorem derived_slug_can_be_empty :
    slugRegexOk (slugOf (("!!!").data)) = false ∧ slugOf (("!!!").data) = [] := by
  decide

/-- C6 (amended): the derived course identifier always consists only of
lowercase alphanumerics and underscores and has at most 50 characters
(`^[a-z0-9_]{0,50}$`); it can be empty when no character of the lowered
title survives the replacement and stripping. -/
theorem derived_slug_charset_and_bound (title : List Char) :
    (slugOf title).length ≤ 50 ∧ (slugOf title).all isSlugChar = true := by
  constructor
  · simp [slugOf]
  · rw [List.all_eq_true]
    intro x hx
    have hx' := List.take_subset _ _ hx
    exact (List.mem_filter.mp hx').2

/-! ## C5 - missing required fields -/

/-- C5: for every parsed JSON object lacking the `title` key or the
`modules` key, `generate_syllabus` raises the missing-required-field
`ValueError`, whose message differs from the invalid-JSON message, and
never returns a syllabus value. -/
theorem generate_syllabus_missing_fields_error (kvs : List (List Char × JVal))
    (h : hasKeyB kvs keyTitle = false ∨ hasKeyB kvs keyModules = false) :
    generate_syllabus (Except.ok (JVal.obj kvs)) = Except.error GenErr.missingFields
    ∧ GenErr.missingFields.message ≠ GenErr.invalidJSON.message := by
  constructor
  · rcases h with h | h
    · simp [generate_syllabus, pyIn, h]
    · cases ht : hasKeyB kvs keyTitle <;> simp [generate_syllabus, pyIn, h, ht]
  · decide

/-- C5 witness: the empty object lacks both keys and is rejected with the
missing-field error. -/
theorem generate_syllabus_missing_fields_check :
    generate_syllabus (Except.ok (JVal.obj [])) = Except.error GenErr.missingFields
    ∧ GenErr.missingFields.message ≠ GenErr.invalidJSON.message :=
  generate_syllabus_missing_fields_error [] (Or.inl rfl)

/-! ## C9 - the module-count check is soft -/

/-- C9: a syllabus object carrying both required keys whose `modules`
value is a list of any length other than 4 is returned unchanged by
`generate_syllabus`; the count mismatch only logs a warning and raises
nothing. -/
theorem module_count_mismatch_soft (kvs : List (List Char × JVal)) (xs : List JVal)
    (ht : hasKeyB kvs keyTitle = true)
    (hm : lookupLast kvs keyModules = some (JVal.arr xs))
    (_hn : xs.length ≠ 4) :
    generate_syllabus (Except.ok (JVal.obj kvs)) = Except.ok (JVal.obj kvs) := by
  have hk : hasKeyB kvs keyModules = true := hasKeyB_of_lookupLast hm
  simp [generate_syllabus, pyIn, getItem, ht, hk, hm, pyLen]

/-- C9 witness: a syllabus with both keys and an empty module list (count
0, not 4) passes through unchanged. -/
theorem module_count_mismatch_soft_check :
    generate_syllabus (Except.ok (JVal.obj
        [(keyTitle, JVal.str (("T").data)), (keyModules, JVal.arr [])]))
      = Except.ok (JVal.obj
        [(keyTitle, JVal.str (("T").data)), (keyModules, JVal.arr [])]) :=
  module_count_mismatch_soft
    [(keyTitle, JVal.str (("T").data)), (keyModules, JVal.arr [])] [] rfl rfl
    (by decide)

/-! ## C7 - one-shot collision suffix -/

/-- C7: when the derived identifier equals an existing Course id, the
assembler appends an underscore and the three decimal digits of one draw
of `randint(100, 999)`, exactly once - the appended form is final, with
no further existence check - and the result differs from the colliding
identifier. -/
theorem collision_suffix_applied_once (slug : List Char) (db : DB) (rand : Nat)
    (hcol : db.courses.any (fun c => c.id == slug) = true)
    (h1 : 100 ≤ rand) (h2 : rand < 1000) :
    courseIdFor slug db rand = slug ++ '_' :: (Nat.repr rand).data
    ∧ courseIdFor slug db rand ≠ slug
    ∧ ((Nat.repr rand).data).length = 3 := by
  refine ⟨by simp [courseIdFor, hcol], ?_, repr_digits_three rand h2 h1⟩
  simp [courseIdFor, hcol]

/-- C7 witness: a store already holding the id `rust` forces the suffixed
identifier `rust_123` for the draw 123. -/
theorem collision_suffix_applied_once_check :
    courseIdFor (("rust").data)
        { courses := [{ id := ("rust").data, title := [], description := [],
                        thumbnail_url := [], level := [], is_generated := true }],
          modules := [], lessons := [], nextModuleId := 1 } 123
      = ("rust").data ++ '_' :: (Nat.repr 123).data
    ∧ courseIdFor (("rust").data)
        { courses := [{ id := ("rust").data, title := [], description := [],
                        thumbnail_url := [], level := [], is_generated := true }],
          modules := [], lessons := [], nextModuleId := 1 } 123
      ≠ ("rust").data
    ∧ ((Nat.repr 123).data).length = 3 :=
  collision_suffix_applied_once (("rust").data)
    { courses := [{ id := ("rust").data, title := [], description := [],
                    thumbnail_url := [], level := [], is_generated := true }],
      modules := [], lessons := [], nextModuleId := 1 } 123
    rfl (by decide) (by decide)

/-! ## C8 - status codes of the generation endpoint -/

/-- The error text of a Gemini rate-limit failure after the generator has
wrapped it: `generate_syllabus` catches every non-`ValueError` exception
and re-raises `ValueError(f"AI service error: {e}")`, so the text reaches
the route as the message of a `ValueError`. -/
def rateLimitMsg : List Char :=
  (GenErr.serviceError (("429 RESOURCE_EXHAUSTED: quota exceeded").data)).message

/-- C8 counterexample: a rate-limit-flavoured failure whose text matches
the 429/rate/quota pattern is raised as a `ValueError` by the generator
and is therefore caught by the handler's `ValueError` clause. The
endpoint returns status 400, not the 503 the claim requires for every
exception with rate-limit-matching text. -/
theorem rate_limit_valueerror_returns_400 :
    matchesRateLimit rateLimitMsg = true
    ∧ generate_course_api (ApiRequest.withTopic (("Rust Programming").data))
        (fun _ => Except.error (PyExn.valueError rateLimitMsg)) = (400, none)
    ∧ (400 : Nat) ≠ 503 := by
  refine ⟨by decide, rfl, by decide⟩

/-- C8 (amended): the endpoint returns 400 for every validation error
(unreadable body, missing topic, empty or over-100-character topic) and
also for every `ValueError` raised by the generator - which includes
AI-service failures with rate-limit text, since the generator wraps them
in `ValueError`; it returns 503 only for a non-`ValueError` exception
whose text matches the rate-limit or not-found patterns, 500 for every
other non-`ValueError` exception, and on success 200 with a body carrying
the course id. -/
theorem api_status_dispatch (gen : List Char → Except PyExn (List Char)) (t : List Char)
    (hne : (pyStrip t).length ≠ 0) (hlen : ¬ 100 < (pyStrip t).length) :
    generate_course_api ApiRequest.badJson gen = (400, none)
    ∧ generate_course_api ApiRequest.noTopic gen = (400, none)
    ∧ (∀ u, (pyStrip u).length = 0 →
        generate_course_api (ApiRequest.withTopic u) gen = (400, none))
    ∧ (∀ u, 100 < (pyStrip u).length →
        generate_course_api (ApiRequest.withTopic u) gen = (400, none))
    ∧ (∀ cid, gen (pyStrip t) = Except.ok cid →
        generate_course_api (ApiRequest.withTopic t) gen = (200, some cid))
    ∧ (∀ m, gen (pyStrip t) = Except.error (PyExn.valueError m) →
        generate_course_api (ApiRequest.withTopic t) gen = (400, none))
    ∧ (∀ m, gen (pyStrip t) = Except.error (PyExn.otherExn m) →
        (matchesRateLimit m || matchesNotFound m) = true →
        generate_course_api (ApiRequest.withTopic t) gen = (503, none))
    ∧ (∀ m, gen (pyStrip t) = Except.error (PyExn.otherExn m) →
        matchesRateLimit m = false → matchesNotFound m = false →
        generate_course_api (ApiRequest.withTopic t) gen = (500, none)) := by
  refine ⟨rfl, rfl, ?_, ?_, ?_, ?_, ?_, ?_⟩
  · intro u hu
    simp [generate_course_api, hu]
  · intro u hu
    simp [generate_course_api, hu]
  · intro cid hg
    simp [generate_course_api, hne, hlen, hg]
  · intro m hg
    simp [generate_course_api, hne, hlen, hg]
  · intro m hg hmatch
    rcases Bool.or_eq_true_iff.mp hmatch with h | h
    · simp [generate_course_api, hne, hlen, hg, h]
    · cases hr : matchesRateLimit m <;>
        simp [generate_course_api, hne, hlen, hg, h, hr]
  · intro m hg h1 h2
    simp [generate_course_api, hne, hlen, hg, h1, h2]

/-- C8 witness: for the topic `Rust` and a generator that succeeds with
the derived slug, the endpoint answers 400 on a bad body and 200 with the
course id on the real request. -/
theorem api_status_dispatch_check :
    generate_course_api ApiRequest.badJson (fun q => Except.ok (slugOf q)) = (400, none)
    ∧ generate_course_api (ApiRequest.withTopic (("Rust").data))
        (fun q => Except.ok (slugOf q)) = (200, some (slugOf (("Rust").data))) := by
  refine ⟨(api_status_dispatch (fun q => Except.ok (slugOf q)) (("Rust").data)
      (by decide) (by decide)).1, ?_⟩
  have h := (api_status_dispatch (fun q => Except.ok (slugOf q)) (("Rust").data)
      (by decide) (by decide)).2.2.2.2.1 (slugOf (("Rust").data))
  exact h rfl

/-! ## C4 - idempotence of the sanitizer -/

/-- A match of the tagged opener is in particular a match of the bare
fence: the first three pattern characters coincide. -/
theorem isPrefixCI_fence_of_fenceJson {l : List Char}
    (h : isPrefixCI fenceJson l = true) : isPrefixCI fence l = true := by
  cases l with
  | nil => simp [fenceJson, fence, isPrefixCI] at h
  | cons a l1 =>
    cases l1 with
    | nil => simp [fenceJson, fence, isPrefixCI] at h
    | cons b l2 =>
      cases l2 with
      | nil => simp [fenceJson, fence, isPrefixCI] at h
      | cons c l3 =>
        simp [fenceJson, fence, isPrefixCI] at h ⊢
        exact ⟨h.1, h.2.1, h.2.2.1⟩

/-- The reverse of a stripped string is itself a `dropWhile` result. -/
theorem pyStrip_rev (z : List Char) :
    (pyStrip z).reverse = ((lstrip z).reverse).dropWhile isPyWs := by
  simp [pyStrip, rstrip]

/-- Stripping is idempotent on the right. -/
theorem rstrip_pyStrip (z : List Char) : rstrip (pyStrip z) = pyStrip z := by
  unfold rstrip
  rw [pyStrip_rev, dropWhile_fixed]
  rfl

/-- Stripping is idempotent on the left. -/
theorem lstrip_pyStrip (z : List Char) : lstrip (pyStrip z) = pyStrip z := by
  obtain ⟨t, ht⟩ := List.dropWhile_suffix (l := (lstrip z).reverse) isPyWs
  have hlz : lstrip z = pyStrip z ++ t.reverse := by
    have hr := congrArg List.reverse ht
    rw [List.reverse_append, List.reverse_reverse] at hr
    rw [← hr]
    rfl
  cases hc : pyStrip z with
  | nil => rfl
  | cons c cs =>
    have hcons : lstrip z = c :: (cs ++ t.reverse) := by rw [hlz, hc]; rfl
    have hfix : (lstrip z).dropWhile isPyWs = lstrip z := dropWhile_fixed isPyWs z
    have hcws : isPyWs c = false := by
      cases hcc : isPyWs c
      · rfl
      · exfalso
        rw [hcons, List.dropWhile_cons_of_pos (by rw [hcc])] at hfix
        have hle := (List.dropWhile_suffix (l := cs ++ t.reverse) isPyWs).length_le
        rw [hfix] at hle
        simp at hle
    exact List.dropWhile_cons_of_neg (by simp [hcws])

/-- A stripped string that neither starts nor ends with a fence marker is
a fixed point of the sanitizer. -/
theorem clean_of_stripped (z : List Char)
    (h1 : isPrefixCI fence (pyStrip z) = false)
    (h2 : isPrefixCI fence (pyStrip z).reverse = false) :
    clean_json_string (pyStrip z) = pyStrip z := by
  have hfj : isPrefixCI fenceJson (pyStrip z) = false := by
    cases hc : isPrefixCI fenceJson (pyStrip z)
    · rfl
    · have hf := isPrefixCI_fence_of_fenceJson hc
      rw [hf] at h1
      exact absurd h1 (by decide)
  have hs1 : sub1 (pyStrip z) = pyStrip z := by simp [sub1, hfj]
  have hs2 : sub2 (pyStrip z) = pyStrip z := by simp [sub2, h1]
  have hnl : ((pyStrip z).reverse.head? == some '\n') = false := by
    rw [pyStrip_rev]
    cases hh : (((lstrip z).reverse).dropWhile isPyWs).head? with
    | none => rfl
    | some c =>
      have hcws : isPyWs c = false := by
        have hhd := List.head?_dropWhile_not isPyWs ((lstrip z).reverse)
        rw [hh] at hhd
        exact hhd
      have hcne : c ≠ '\n' := by
        intro hceq
        rw [hceq] at hcws
        exact absurd hcws (by decide)
      rw [beq_eq_false_iff_ne]
      simp [hcne]
  have hcond2 : (((pyStrip z).reverse.head? == some '\n')
      && isPrefixCI fence ((pyStrip z).reverse.drop 1)) = false := by
    rw [hnl]
    rfl
  have hs3 : sub3 (pyStrip z) = pyStrip z := by
    unfold sub3
    rw [if_neg (by rw [h2]; decide), if_neg (by rw [hcond2]; decide)]
  show pyStrip (sub3 (sub2 (sub1 (pyStrip z)))) = pyStrip z
  rw [hs1, hs2, hs3]
  show rstrip (lstrip (pyStrip z)) = pyStrip z
  rw [lstrip_pyStrip, rstrip_pyStrip]

/-- C4 counterexample: `clean_json_string` is not idempotent.  On an input
formed of a bare fence, a space, a tagged ` ```json ` opener and the text
`abc`, the first application removes only the leading bare fence,
exposing the tagged opener, which the second application removes as
well. -/
theorem clean_json_string_not_idempotent :
    clean_json_string (clean_json_string (("``` ```json abc").data))
      ≠ clean_json_string (("``` ```json abc").data) := by
  decide

/-- C4 (amended): `clean_json_string` is idempotent on every input whose
cleaned result neither starts nor ends with a ``` fence marker - in
particular on well-formed responses with at most one leading and one
trailing fence; when the first pass exposes a further fence, a second
pass strips more. -/
theorem clean_json_string_idempotent_away_from_fences (l : List Char)
    (h1 : isPrefixCI fence (clean_json_string l) = false)
    (h2 : isPrefixCI fence (clean_json_string l).reverse = false) :
    clean_json_string (clean_json_string l) = clean_json_string l := by
  have hdef : clean_json_string l = pyStrip (sub3 (sub2 (sub1 l))) := rfl
  rw [hdef] at h1 h2 ⊢
  exact clean_of_stripped _ h1 h2

/-- C4 witness: a response wrapped in a single pair of fences cleans to a
fence-free string, on which a second cleaning is the identity. -/
theorem clean_json_string_idempotent_check :
    isPrefixCI fence (clean_json_string (("```json\nhello\n```").data)) = false
    ∧ isPrefixCI fence (clean_json_string (("```json\nhello\n```").data)).reverse = false
    ∧ clean_json_string (clean_json_string (("```json\nhello\n```").data))
        = clean_json_string (("```json\nhello\n```").data) :=
  ⟨by decide, by decide,
    clean_json_string_idempotent_away_from_fences _ (by decide) (by decide)⟩

/-! ## C1 - end-to-end shape of a 4-module, 3-lesson generation -/

/-- C1: for a successful generation whose syllabus holds exactly 4 modules
of 3 lessons each, `generate_course` commits exactly one new Course row,
4 new Module rows whose `order_index` values are 1..4 in syllabus order,
and 12 new Lesson rows whose `order_index` values are 1..3 within each
module in lesson order; the committed Course's `thumbnail_url` is the URL
built from the video id resolved for the first lesson of the first
module. -/
theorem generate_course_four_by_three
    (topic : List Char) (s : Syllabus) (search : List Char → VideoInfo)
    (rand : Nat) (db : DB)
    (m1 m2 m3 m4 : ModuleSpec)
    (l11 l12 l13 l21 l22 l23 l31 l32 l33 l41 l42 l43 : List Char)
    (hm : s.modules = [m1, m2, m3, m4])
    (h1 : m1.lessons.getD [] = [l11, l12, l13])
    (h2 : m2.lessons.getD [] = [l21, l22, l23])
    (h3 : m3.lessons.getD [] = [l31, l32, l33])
    (h4 : m4.lessons.getD [] = [l41, l42, l43]) :
    (generate_course_ok topic s search rand db).2.courses.length
      = db.courses.length + 1
    ∧ (generate_course_ok topic s search rand db).2.modules.map
        (fun r => r.order_index)
      = db.modules.map (fun r => r.order_index) ++ [1, 2, 3, 4]
    ∧ (generate_course_ok topic s search rand db).2.modules.map (fun r => r.title)
      = db.modules.map (fun r => r.title) ++ [m1.title, m2.title, m3.title, m4.title]
    ∧ (generate_course_ok topic s search rand db).2.lessons.map
        (fun r => r.order_index)
      = db.lessons.map (fun r => r.order_index)
        ++ [1, 2, 3, 1, 2, 3, 1, 2, 3, 1, 2, 3]
    ∧ (generate_course_ok topic s search rand db).2.lessons.map (fun r => r.title)
      = db.lessons.map (fun r => r.title)
        ++ [l11, l12, l13, l21, l22, l23, l31, l32, l33, l41, l42, l43]
    ∧ ((generate_course_ok topic s search rand db).2.courses.getLast?).map
        (fun c => c.thumbnail_url)
      = some (thumbUrl (search l11).id)
    ∧ generate_course topic (Except.ok s) search rand db
      = Except.ok (generate_course_ok topic s search rand db) := by
  refine ⟨?_, ?_, ?_, ?_, ?_, ?_, rfl⟩ <;>
    simp [generate_course_ok, hm, h1, h2, h3, h4, buildModuleRows, buildLessonRows,
      buildLessons, courseThumb, List.getLast?_concat]

/-- The 4-module, 3-lesson syllabus of the end-to-end scenario. -/
def sylW : Syllabus :=
  { title := ("Rust Programming").data, description := none, level := none,
    modules :=
      [{ title := ("M1").data,
         lessons := some [("a").data, ("b").data, ("c").data] },
       { title := ("M2").data,
         lessons := some [("d").data, ("e").data, ("f").data] },
       { title := ("M3").data,
         lessons := some [("g").data, ("h").data, ("i").data] },
       { title := ("M4").data,
         lessons := some [("j").data, ("k").data, ("l").data] }] }

/-- A deterministic resolver for the scenario: every query resolves to a
video whose id is the query itself. -/
def searchW : List Char → VideoInfo :=
  fun q => { id := q, title := q, duration := defaultDuration }

/-- An empty store for the scenario. -/
def dbW : DB := { courses := [], modules := [], lessons := [], nextModuleId := 1 }

/-- C1 witness: running the assembler on the concrete 4-by-3 syllabus over
an empty store yields one Course, module order indices 1..4, lesson order
indices 1..3 per module, and the thumbnail of the first resolved video. -/
theorem generate_course_four_by_three_check :
    (generate_course_ok (("Rust Programming").data) sylW searchW 555 dbW).2.courses.length
      = 1
    ∧ (generate_course_ok (("Rust Programming").data) sylW searchW 555 dbW).2.modules.map
        (fun r => r.order_index) = [1, 2, 3, 4]
    ∧ (generate_course_ok (("Rust Programming").data) sylW searchW 555 dbW).2.modules.map
        (fun r => r.title) = [("M1").data, ("M2").data, ("M3").data, ("M4").data]
    ∧ (generate_course_ok (("Rust Programming").data) sylW searchW 555 dbW).2.lessons.map
        (fun r => r.order_index) = [1, 2, 3, 1, 2, 3, 1, 2, 3, 1, 2, 3]
    ∧ (generate_course_ok (("Rust Programming").data) sylW searchW 555 dbW).2.lessons.map
        (fun r => r.title)
      = [("a").data, ("b").data, ("c").data, ("d").data, ("e").data, ("f").data,
         ("g").data, ("h").data, ("i").data, ("j").data, ("k").data, ("l").data]
    ∧ ((generate_course_ok (("Rust Programming").data) sylW searchW 555 dbW).2.courses.getLast?).map
        (fun c => c.thumbnail_url) = some (thumbUrl (searchW (("a").data)).id)
    ∧ generate_course (("Rust Programming").data) (Except.ok sylW) searchW 555 dbW
      = Except.ok (generate_course_ok (("Rust Programming").data) sylW searchW 555 dbW) :=
  generate_course_four_by_three (("Rust Programming").data) sylW searchW 555 dbW
    _ _ _ _ _ _ _ _ _ _ _ _ _ _ _ _ rfl rfl rfl rfl rfl
